import Mathlib

/-!
Verification of the fallback-routing client patterns of the
nats-permissions-graceful-poc repository, as a shallow embedding in Lean 4.

The embedding models the decision logic of:
* `NATSPublisher.publishWithFallback` and `NATSPublisher.publishSimple`
  (src/publisher.ts),
* `RequestReplyLeafPublisher.connectWithFallback` and
  `RequestReplyLeafPublisher.testPublishCapability`
  (src/request-reply-leaf-publisher.ts),
* `NATSSubscriber.subscribe` / `NATSSubscriber.processMessages`
  (src/subscriber.ts) and `BroadcastSubscriber.setupBroadcastSubscriptions`
  (broadcast subscriber source).

Broker behaviour (the result of each request, connect attempt or
subscription registration) is supplied as an explicit environment
parameter; the embedded functions reproduce the source's control flow over
those results, and additionally record the trace of attempts and the logged
classifications so that temporal claims can be stated.
-/

set_option maxRecDepth 4000

namespace NatsPoc

/-- Char-list prefix test: `hasPrefixChars s p` is true when `p` is an
initial segment of `s`.  Used to implement JavaScript's
`String.prototype.includes`. -/
def hasPrefixChars : List Char → List Char → Bool
  | _, [] => true
  | [], _ :: _ => false
  | a :: as, b :: bs => a == b && hasPrefixChars as bs

/-- Char-list substring test: `hasSubstrChars s p` is true when `p` occurs
contiguously inside `s`. -/
def hasSubstrChars : List Char → List Char → Bool
  | [], pat => pat.isEmpty
  | a :: t, pat => hasPrefixChars (a :: t) pat || hasSubstrChars t pat

/-- JavaScript's `errorMsg.includes(pat)`: substring containment on
strings. -/
def includes (s pat : String) : Bool :=
  hasSubstrChars s.data pat.data

theorem hasPrefixChars_append (p t : List Char) :
    hasPrefixChars (p ++ t) p = true := by
  induction p with
  | nil => cases t <;> rfl
  | cons a as ih =>
    simp [hasPrefixChars, ih]

theorem hasSubstrChars_append (x p t : List Char) :
    hasSubstrChars (x ++ (p ++ t)) p = true := by
  induction x with
  | nil =>
    rw [List.nil_append]
    cases p with
    | nil => cases t <;> simp [hasSubstrChars, hasPrefixChars]
    | cons b bs =>
      have h1 : hasPrefixChars (b :: bs ++ t) (b :: bs) = true :=
        hasPrefixChars_append (b :: bs) t
      simp only [List.cons_append] at h1 ⊢
      simp [hasSubstrChars, h1]
  | cons a as ih =>
    simp only [List.cons_append, hasSubstrChars, List.append_eq, ih,
      Bool.or_true]

/-- Substring containment holds for an exactly embedded segment. -/
theorem includes_of_append (x s y : String) :
    includes (x ++ s ++ y) s = true := by
  have hx : (x ++ s ++ y).data = x.data ++ (s.data ++ y.data) := by
    simp [String.data_append]
  rw [includes, hx]
  exact hasSubstrChars_append x.data s.data y.data

/-! ## Publisher: `NATSPublisher.publishWithFallback` (src/publisher.ts)

The source tries a request on `primarySubject`; on success it returns
immediately.  On any thrown error it logs a substring-classified reason and
then retries once on `fallbackSubject`; if that also throws it logs a
second classified reason and throws a composite error built from the two
subjects and the fallback attempt's error message. -/

/-- Configuration of one publish scenario (src/publisher.ts `PublishConfig`,
with the user flattened to its name). -/
structure PublishConfig where
  user : String
  scenario : String
  primarySubject : String
  fallbackSubject : String
  requestTimeout : Nat
deriving DecidableEq, Repr

/-- The JSON payload assembled for each request (fields of the
`JSON.stringify` calls in `publishWithFallback`; the primary payload has no
`fallback`/`originalSubject` fields, modelled as `false`/`none`). -/
structure PublishPayload where
  message : String
  user : String
  scenario : String
  timestamp : String
  attempt : Nat
  fallback : Bool
  originalSubject : Option String
deriving DecidableEq, Repr

/-- Environment-supplied result of one `nc.request` call: either a reply
arrived within the timeout, or the call threw with the given error
message. -/
inductive ReqResult where
  | reply (resp : String)
  | failure (errMsg : String)
deriving DecidableEq, Repr

/-- Final outcome of `publishWithFallback`: normal return, or the composite
`Error` thrown when both subjects failed. -/
inductive PubOutcome where
  | success
  | bothFailed (errMsg : String)
deriving DecidableEq, Repr

/-- The substring classification logged after the primary attempt fails
(src/publisher.ts lines 128-138). -/
def primaryFailureReason (cfg : PublishConfig) (errorMsg : String) : String :=
  if includes errorMsg "no responders" then
    "No active subscribers on " ++ cfg.primarySubject
  else if includes errorMsg "timeout" then
    "Request timeout (" ++ toString cfg.requestTimeout ++ "ms)"
  else if includes errorMsg "Permissions Violation" then
    "Permission denied - user lacks publish access"
  else if includes errorMsg "503" then
    "NoResponder Error"
  else
    errorMsg

/-- The substring classification logged after the fallback attempt fails
(src/publisher.ts lines 175-183). -/
def fallbackFailureReason (cfg : PublishConfig) (errorMsg : String) : String :=
  if includes errorMsg "no responders" then
    "No active subscribers on " ++ cfg.fallbackSubject
  else if includes errorMsg "timeout" then
    "Request timeout (" ++ toString cfg.requestTimeout ++ "ms)"
  else if includes errorMsg "Permissions Violation" || includes errorMsg "503" then
    "Permission denied - user lacks publish access"
  else
    errorMsg

/-- The message of the composite `Error` thrown when both subjects failed
(src/publisher.ts line 186): note it interpolates only the fallback
attempt's error message. -/
def compositeFailureMsg (cfg : PublishConfig) (fallbackErr : String) : String :=
  "Both primary (" ++ cfg.primarySubject ++ ") and fallback (" ++
    cfg.fallbackSubject ++ ") subjects failed: " ++ fallbackErr

/-- Payload of the primary attempt (`attempt: 1`). -/
def primaryPayload (cfg : PublishConfig) (message timestamp : String) : PublishPayload :=
  { message := message, user := cfg.user, scenario := cfg.scenario,
    timestamp := timestamp, attempt := 1, fallback := false,
    originalSubject := none }

/-- Payload of the fallback attempt (`attempt: 2, fallback: true`). -/
def fallbackPayload (cfg : PublishConfig) (message timestamp : String) : PublishPayload :=
  { message := message, user := cfg.user, scenario := cfg.scenario,
    timestamp := timestamp, attempt := 2, fallback := true,
    originalSubject := some cfg.primarySubject }

/-- Trace of one `publishWithFallback` run: the requests issued in order
(subject and payload), the classified reasons logged for each failed
attempt, and the final outcome. -/
structure FallbackTrace where
  requests : List (String × PublishPayload)
  primaryReasonLog : Option String
  fallbackReasonLog : Option String
  outcome : PubOutcome
deriving DecidableEq, Repr

/-- Shallow embedding of `NATSPublisher.publishWithFallback`
(src/publisher.ts lines 85-188).  `request` gives the broker's response to
a request on each subject. -/
def publishWithFallback (cfg : PublishConfig) (message timestamp : String)
    (request : String → ReqResult) : FallbackTrace :=
  match request cfg.primarySubject with
  | ReqResult.reply _ =>
      { requests := [(cfg.primarySubject, primaryPayload cfg message timestamp)],
        primaryReasonLog := none, fallbackReasonLog := none,
        outcome := PubOutcome.success }
  | ReqResult.failure e1 =>
      match request cfg.fallbackSubject with
      | ReqResult.reply _ =>
          { requests := [(cfg.primarySubject, primaryPayload cfg message timestamp),
                         (cfg.fallbackSubject, fallbackPayload cfg message timestamp)],
            primaryReasonLog := some (primaryFailureReason cfg e1),
            fallbackReasonLog := none,
            outcome := PubOutcome.success }
      | ReqResult.failure e2 =>
          { requests := [(cfg.primarySubject, primaryPayload cfg message timestamp),
                         (cfg.fallbackSubject, fallbackPayload cfg message timestamp)],
            primaryReasonLog := some (primaryFailureReason cfg e1),
            fallbackReasonLog := some (fallbackFailureReason cfg e2),
            outcome := PubOutcome.bothFailed (compositeFailureMsg cfg e2) }

end NatsPoc

namespace NatsPoc

/-- C1: in subject-fallback mode the fallback subject is never attempted
unless the primary request has already failed; when the primary request
succeeds, the run consists of the single primary request and returns
success immediately. -/
theorem publishWithFallback_primary_first (cfg : PublishConfig)
    (message timestamp : String) (request : String → ReqResult) :
    (∀ r, request cfg.primarySubject = ReqResult.reply r →
      (publishWithFallback cfg message timestamp request).requests
          = [(cfg.primarySubject, primaryPayload cfg message timestamp)] ∧
      (publishWithFallback cfg message timestamp request).outcome
          = PubOutcome.success) ∧
    ((publishWithFallback cfg message timestamp request).requests.map Prod.fst
        = [cfg.primarySubject] ∨
      ((publishWithFallback cfg message timestamp request).requests.map Prod.fst
          = [cfg.primarySubject, cfg.fallbackSubject] ∧
        ∃ e, request cfg.primarySubject = ReqResult.failure e)) := by
  cases h : request cfg.primarySubject with
  | reply r =>
    refine ⟨fun r' _ => ?_, Or.inl ?_⟩ <;>
      simp [publishWithFallback, h]
  | failure e =>
    refine ⟨fun r' hr' => ReqResult.noConfusion hr', Or.inr ⟨?_, e, rfl⟩⟩
    cases hf : request cfg.fallbackSubject <;>
      simp [publishWithFallback, h, hf]

/-- Witness for `publishWithFallback_primary_first` at a concrete
environment whose primary request succeeds. -/
theorem publishWithFallback_primary_first_witness :
    (publishWithFallback
        (PublishConfig.mk "Foo" "s" "rpc.hello.world" "broad.rpc.hello.world" 2000)
        "hi" "t" (fun _ => ReqResult.reply "ok")).requests
      = [("rpc.hello.world",
          primaryPayload
            (PublishConfig.mk "Foo" "s" "rpc.hello.world" "broad.rpc.hello.world" 2000)
            "hi" "t")] :=
  ((publishWithFallback_primary_first
      (PublishConfig.mk "Foo" "s" "rpc.hello.world" "broad.rpc.hello.world" 2000)
      "hi" "t" (fun _ => ReqResult.reply "ok")).1 "ok" rfl).1

/-- C10: every primary-request error whatsoever leads to exactly one
fallback attempt, and the substring classification of the primary error
influences only the logged reason: two runs whose primary requests fail
with arbitrary (possibly differently classified) error messages but whose
fallback requests behave identically issue the same requests and produce
the same outcome. -/
theorem publishWithFallback_error_agnostic_fallback (cfg : PublishConfig)
    (message timestamp : String) (req req' : String → ReqResult) (e e' : String)
    (h : req cfg.primarySubject = ReqResult.failure e)
    (h' : req' cfg.primarySubject = ReqResult.failure e')
    (hfb : req cfg.fallbackSubject = req' cfg.fallbackSubject) :
    (publishWithFallback cfg message timestamp req).requests.map Prod.fst
        = [cfg.primarySubject, cfg.fallbackSubject] ∧
    (publishWithFallback cfg message timestamp req).requests
        = (publishWithFallback cfg message timestamp req').requests ∧
    (publishWithFallback cfg message timestamp req).outcome
        = (publishWithFallback cfg message timestamp req').outcome := by
  cases hf : req cfg.fallbackSubject with
  | reply r =>
    have hf' : req' cfg.fallbackSubject = ReqResult.reply r := by
      rw [← hfb]; exact hf
    simp [publishWithFallback, h, h', hf, hf']
  | failure e2 =>
    have hf' : req' cfg.fallbackSubject = ReqResult.failure e2 := by
      rw [← hfb]; exact hf
    simp [publishWithFallback, h, h', hf, hf']

/-- Witness for `publishWithFallback_error_agnostic_fallback`: a
permission-violation failure and an entirely unclassified failure on the
primary subject yield the same requests and the same outcome. -/
theorem publishWithFallback_error_agnostic_fallback_witness :
    (publishWithFallback
        (PublishConfig.mk "Bar" "s" "rpc.hello.world" "broad.rpc.hello.world" 2000)
        "hi" "t"
        (fun s => if s == "rpc.hello.world" then
            ReqResult.failure "Permissions Violation for Publish to \"rpc.hello.world\""
          else ReqResult.reply "ok")).requests.map Prod.fst
      = ["rpc.hello.world", "broad.rpc.hello.world"] :=
  (publishWithFallback_error_agnostic_fallback
    (PublishConfig.mk "Bar" "s" "rpc.hello.world" "broad.rpc.hello.world" 2000)
    "hi" "t"
    (fun s => if s == "rpc.hello.world" then
        ReqResult.failure "Permissions Violation for Publish to \"rpc.hello.world\""
      else ReqResult.reply "ok")
    (fun s => if s == "rpc.hello.world" then
        ReqResult.failure "stray transport glitch"
      else ReqResult.reply "ok")
    "Permissions Violation for Publish to \"rpc.hello.world\""
    "stray transport glitch" rfl rfl rfl).1

/-- Concrete environment for the C5 counterexample: the primary subject
fails with one distinctive message, the fallback subject with another. -/
def reqBothFail : String → ReqResult := fun s =>
  if s == "rpc.hello.world" then ReqResult.failure "PRIMARY-REASON-XYZ"
  else ReqResult.failure "FALLBACK-REASON-ABC"

/-- Concrete configuration for the C5 counterexample. -/
def cfgBothFail : PublishConfig :=
  PublishConfig.mk "Bar" "s" "rpc.hello.world" "broad.rpc.hello.world" 2000

/-- C5 counterexample: when both subjects fail, the thrown composite error
interpolates only the fallback attempt's error message — the primary
attempt's failure reason ("PRIMARY-REASON-XYZ") does not occur anywhere in
the error text, refuting the claim that the composite error names both
failure reasons. -/
theorem publishWithFallback_composite_omits_primary_reason :
    (publishWithFallback cfgBothFail "m" "t" reqBothFail).outcome
        = PubOutcome.bothFailed
            "Both primary (rpc.hello.world) and fallback (broad.rpc.hello.world) subjects failed: FALLBACK-REASON-ABC" ∧
    reqBothFail "rpc.hello.world" = ReqResult.failure "PRIMARY-REASON-XYZ" ∧
    includes
        "Both primary (rpc.hello.world) and fallback (broad.rpc.hello.world) subjects failed: FALLBACK-REASON-ABC"
        "PRIMARY-REASON-XYZ" = false ∧
    includes
        "Both primary (rpc.hello.world) and fallback (broad.rpc.hello.world) subjects failed: FALLBACK-REASON-ABC"
        "FALLBACK-REASON-ABC" = true := by
  refine ⟨?_, rfl, by decide, by decide⟩
  rfl

/-- C5 (amended): when both subjects fail, the operation throws a
composite error that names both subjects and the fallback attempt's error
message; the primary attempt's failure reason appears only in the logged
classification, not in the thrown error. -/
theorem publishWithFallback_both_failed_composite (cfg : PublishConfig)
    (message timestamp : String) (request : String → ReqResult) (e1 e2 : String)
    (h1 : request cfg.primarySubject = ReqResult.failure e1)
    (h2 : request cfg.fallbackSubject = ReqResult.failure e2) :
    (publishWithFallback cfg message timestamp request).outcome
        = PubOutcome.bothFailed (compositeFailureMsg cfg e2) ∧
    includes (compositeFailureMsg cfg e2) cfg.primarySubject = true ∧
    includes (compositeFailureMsg cfg e2) cfg.fallbackSubject = true ∧
    includes (compositeFailureMsg cfg e2) e2 = true ∧
    (publishWithFallback cfg message timestamp request).primaryReasonLog
        = some (primaryFailureReason cfg e1) := by
  refine ⟨by simp [publishWithFallback, h1, h2], ?_, ?_, ?_, by simp [publishWithFallback, h1, h2]⟩
  · have := includes_of_append "Both primary (" cfg.primarySubject
      (") and fallback (" ++ cfg.fallbackSubject ++ ") subjects failed: " ++ e2)
    rw [compositeFailureMsg]
    rw [show "Both primary (" ++ cfg.primarySubject ++ ") and fallback (" ++
        cfg.fallbackSubject ++ ") subjects failed: " ++ e2
      = "Both primary (" ++ cfg.primarySubject ++
        (") and fallback (" ++ cfg.fallbackSubject ++ ") subjects failed: " ++ e2) from by
        simp [String.append_assoc]]
    exact this
  · have := includes_of_append ("Both primary (" ++ cfg.primarySubject ++ ") and fallback (")
      cfg.fallbackSubject (") subjects failed: " ++ e2)
    rw [compositeFailureMsg]
    rw [show "Both primary (" ++ cfg.primarySubject ++ ") and fallback (" ++
        cfg.fallbackSubject ++ ") subjects failed: " ++ e2
      = "Both primary (" ++ cfg.primarySubject ++ ") and fallback (" ++
        cfg.fallbackSubject ++ (") subjects failed: " ++ e2) from by
        simp [String.append_assoc]]
    exact this
  · have := includes_of_append ("Both primary (" ++ cfg.primarySubject ++ ") and fallback (" ++
      cfg.fallbackSubject ++ ") subjects failed: ") e2 ""
    rw [compositeFailureMsg]
    rw [show "Both primary (" ++ cfg.primarySubject ++ ") and fallback (" ++
        cfg.fallbackSubject ++ ") subjects failed: " ++ e2
      = "Both primary (" ++ cfg.primarySubject ++ ") and fallback (" ++
        cfg.fallbackSubject ++ ") subjects failed: " ++ e2 ++ "" from by
        simp]
    exact this

/-- Witness for `publishWithFallback_both_failed_composite` at the concrete
double-failure environment. -/
theorem publishWithFallback_both_failed_composite_witness :
    (publishWithFallback cfgBothFail "m" "t" reqBothFail).outcome
      = PubOutcome.bothFailed (compositeFailureMsg cfgBothFail "FALLBACK-REASON-ABC") :=
  (publishWithFallback_both_failed_composite cfgBothFail "m" "t" reqBothFail
    "PRIMARY-REASON-XYZ" "FALLBACK-REASON-ABC" rfl rfl).1

/-! ## Publisher: `NATSPublisher.publishSimple` (src/publisher.ts lines
190-217)

A one-way publish builds a `publishOnly` payload and calls `nc.publish`,
which is a client-side enqueue: it completes (and the method returns)
without any broker-side acknowledgement.  The broker's authorization check
happens server-side and may silently drop the message; the client sees no
signal.  The broker side is modelled by an explicit permission predicate
that the client-side function does not consult. -/

/-- The payload assembled by `publishSimple` (`publishOnly: true`). -/
structure SimplePayload where
  message : String
  user : String
  scenario : String
  timestamp : String
  publishOnly : Bool
deriving DecidableEq, Repr

/-- Shallow embedding of `NATSPublisher.publishSimple`: with a live
connection the client-side send always completes and the method returns
the enqueued (subject, payload) pair; without one it throws. -/
def publishSimple (connected : Bool) (user scenario timestamp subject message : String) :
    Except String (String × SimplePayload) :=
  if connected then
    Except.ok (subject, SimplePayload.mk message user scenario timestamp true)
  else
    Except.error "Not connected to NATS server"

/-- Broker-side model of a one-way publish: the message is delivered only
when the broker's permission table authorizes the user on that subject;
otherwise it is dropped silently with no client-visible signal. -/
def brokerDeliversSimple (allowPub : String → String → Bool)
    (user subject : String) : Bool :=
  allowPub user subject

/-- C9: a one-way publish returns success as soon as the client-side send
completes, for every subject and identity — including identities the
broker does not authorize for that subject, whose messages the broker
silently drops; success asserts nothing beyond completion of the
client-side send. -/
theorem publishSimple_client_side_only (allowPub : String → String → Bool)
    (user scenario timestamp subject message : String) :
    publishSimple true user scenario timestamp subject message
        = Except.ok (subject, SimplePayload.mk message user scenario timestamp true) ∧
    (allowPub user subject = false →
      (brokerDeliversSimple allowPub user subject = false ∧
        publishSimple true user scenario timestamp subject message
          = Except.ok (subject, SimplePayload.mk message user scenario timestamp true))) := by
  refine ⟨rfl, fun h => ⟨?_, rfl⟩⟩
  simpa [brokerDeliversSimple] using h

/-- Witness for `publishSimple_client_side_only`: the restricted user Bar
publishing to the forbidden subject `rpc.hello.world` still gets a
client-side success while the modelled broker drops the message. -/
theorem publishSimple_client_side_only_witness :
    brokerDeliversSimple (fun u s => !(u == "Bar" && s == "rpc.hello.world"))
        "Bar" "rpc.hello.world" = false ∧
    publishSimple true "Bar" "s" "t" "rpc.hello.world" "m"
      = Except.ok ("rpc.hello.world", SimplePayload.mk "m" "Bar" "s" "t" true) :=
  (publishSimple_client_side_only (fun u s => !(u == "Bar" && s == "rpc.hello.world"))
    "Bar" "s" "t" "rpc.hello.world" "m").2 (by decide)

/-! ## Capability Prober: `RequestReplyLeafPublisher.testPublishCapability`
(src/request-reply-leaf-publisher.ts lines 105-155)

For the restricted user `bar` on the `main` cluster, the prober issues a
100 ms trial request on `rpc.hello.world` and classifies the thrown error
by substring: `timeout` ⇒ authorized (request was forwarded, nobody
listening), `no responders`/`503` ⇒ denied, anything else ⇒ also `false`.
For `bar` on `leaf` and for every other user the method returns `true`
without issuing any request. -/

/-- Environment-supplied result of the trial request. -/
inductive ProbeResult where
  | replied (resp : String)
  | probeError (msg : String)
deriving DecidableEq, Repr

/-- Shallow embedding of `testPublishCapability`.  `probe` is the result
the trial request would produce; the source consults it only in the
`bar`/`main` branch. -/
def testPublishCapability (userName clusterName : String) (probe : ProbeResult) : Bool :=
  if userName == "bar" then
    if clusterName == "main" then
      match probe with
      | ProbeResult.replied _ => true
      | ProbeResult.probeError msg =>
        if includes msg "timeout" then true
        else if includes msg "no responders" || includes msg "503" then false
        else false
    else
      true
  else
    true

/-- C2: the prober's verdict follows the documented classification policy:
a timeout is treated as authorized for every identity and cluster; an
immediate no-responder / 503 signal is treated as denied when the
restricted identity `bar` probes the restricted `main` cluster; and the
full-access identities `foo` and `mmm` are treated as authorized (the
"authorized-but-unserved" reading) whatever the trial call would return. -/
theorem testPublishCapability_policy (userName clusterName msg : String) :
    (includes msg "timeout" = true →
      testPublishCapability userName clusterName (ProbeResult.probeError msg) = true) ∧
    (includes msg "timeout" = false →
      (includes msg "no responders" = true ∨ includes msg "503" = true) →
      testPublishCapability "bar" "main" (ProbeResult.probeError msg) = false) ∧
    ((userName = "foo" ∨ userName = "mmm") →
      testPublishCapability userName clusterName (ProbeResult.probeError msg) = true) := by
  refine ⟨fun ht => ?_, fun ht hnr => ?_, fun hu => ?_⟩
  · unfold testPublishCapability
    split
    · split
      · simp [ht]
      · rfl
    · rfl
  · have : (includes msg "no responders" || includes msg "503") = true := by
      rcases hnr with h | h <;> simp [h]
    simp [testPublishCapability, ht, this]
  · rcases hu with h | h <;> subst h <;> rfl

/-- Witness for `testPublishCapability_policy` at concrete probe errors:
a timeout is authorized for `bar` on `main`, the no-responder signal is
denied there, and `foo` is authorized in the face of the same signal. -/
theorem testPublishCapability_policy_witness :
    testPublishCapability "bar" "main"
        (ProbeResult.probeError "nats: timeout after 100ms") = true ∧
    testPublishCapability "bar" "main"
        (ProbeResult.probeError "503 no responders available") = false ∧
    testPublishCapability "foo" "main"
        (ProbeResult.probeError "503 no responders available") = true :=
  ⟨(testPublishCapability_policy "bar" "main" "nats: timeout after 100ms").1 (by decide),
   (testPublishCapability_policy "bar" "main" "503 no responders available").2.1
     (by decide) (Or.inl (by decide)),
   (testPublishCapability_policy "foo" "main" "503 no responders available").2.2
     (Or.inl rfl)⟩

/-! ## Fallback Selector: `RequestReplyLeafPublisher.connectWithFallback`
(src/request-reply-leaf-publisher.ts lines 49-103)

The candidate clusters are a fixed literal list, `main` then `leaf`.  The
loop connects to each in order; on connect success it runs
`testPublishCapability` and accepts the cluster iff that returns `true`,
otherwise it closes the connection and moves on; on connect failure it
moves on.  When no cluster is accepted the method returns the bare boolean
`false`.  The embedding additionally records the attempt trace (which in
the source exists only as console output). -/

/-- `ClusterInfo` (src/request-reply-leaf-publisher.ts lines 17-22). -/
structure ClusterInfo where
  name : String
  url : String
  monitoring : String
  description : String
deriving DecidableEq, Repr

/-- The `main` candidate (first element of the `clusters` literal). -/
def mainCluster : ClusterInfo :=
  { name := "main", url := "tls://localhost:4222",
    monitoring := "http://localhost:8222",
    description := "Main restrictive cluster" }

/-- The `leaf` candidate (second element of the `clusters` literal). -/
def leafCluster : ClusterInfo :=
  { name := "leaf", url := "tls://localhost:4223",
    monitoring := "http://localhost:8223",
    description := "Leaf broadcast relay cluster" }

/-- The fixed candidate list (`private clusters` field, lines 30-43). -/
def clusters : List ClusterInfo := [mainCluster, leafCluster]

/-- Environment-supplied outcome of attempting one cluster: the `connect`
call threw, or it succeeded and the trial request would produce the given
`ProbeResult`. -/
inductive ConnectOutcome where
  | connFailed (msg : String)
  | connected (probe : ProbeResult)
deriving DecidableEq, Repr

/-- Classification of one attempt in the trace. -/
inductive AttemptKind where
  | connectFailed (msg : String)
  | permissionRejected
  | accepted
deriving DecidableEq, Repr

/-- One entry of the attempt trace. -/
structure AttemptRecord where
  cluster : String
  kind : AttemptKind
deriving DecidableEq, Repr

/-- The selection loop of `connectWithFallback` over an arbitrary candidate
list: returns the first accepted cluster (if any) and the attempt trace. -/
def connectClusters (userName : String) (env : String → ConnectOutcome) :
    List ClusterInfo → Option ClusterInfo × List AttemptRecord
  | [] => (none, [])
  | c :: rest =>
    match env c.name with
    | ConnectOutcome.connFailed m =>
        ((connectClusters userName env rest).1,
          AttemptRecord.mk c.name (AttemptKind.connectFailed m)
            :: (connectClusters userName env rest).2)
    | ConnectOutcome.connected probe =>
        if testPublishCapability userName c.name probe then
          (some c, [AttemptRecord.mk c.name AttemptKind.accepted])
        else
          ((connectClusters userName env rest).1,
            AttemptRecord.mk c.name AttemptKind.permissionRejected
              :: (connectClusters userName env rest).2)

/-- Result of one `connectWithFallback` run: the returned boolean, the
`connectedCluster` field after the run, and the attempt trace. -/
structure SelectionRun where
  ok : Bool
  connectedCluster : Option ClusterInfo
  attempts : List AttemptRecord
deriving DecidableEq, Repr

/-- Shallow embedding of `connectWithFallback` over the fixed `clusters`
list. -/
def connectWithFallback (userName : String) (env : String → ConnectOutcome) :
    SelectionRun :=
  { ok := (connectClusters userName env clusters).1.isSome,
    connectedCluster := (connectClusters userName env clusters).1,
    attempts := (connectClusters userName env clusters).2 }

/-- The value the source method actually returns to its caller: a bare
boolean. -/
def connectWithFallbackReturn (userName : String)
    (env : String → ConnectOutcome) : Bool :=
  (connectWithFallback userName env).ok

theorem connectClusters_congr (userName : String)
    (env env' : String → ConnectOutcome) (cs : List ClusterInfo)
    (h : ∀ c ∈ cs, env c.name = env' c.name) :
    connectClusters userName env cs = connectClusters userName env' cs := by
  induction cs with
  | nil => rfl
  | cons c rest ih =>
    have hc : env c.name = env' c.name := h c (List.mem_cons_self c rest)
    have hrest : connectClusters userName env rest
        = connectClusters userName env' rest :=
      ih (fun d hd => h d (List.mem_cons_of_mem c hd))
    simp only [connectClusters, hc, hrest]

theorem connectClusters_order (userName : String)
    (env : String → ConnectOutcome) (cs : List ClusterInfo) :
    (connectClusters userName env cs).2.map AttemptRecord.cluster
      = (cs.map ClusterInfo.name).take (connectClusters userName env cs).2.length := by
  induction cs with
  | nil => rfl
  | cons c rest ih =>
    cases he : env c.name with
    | connFailed m =>
      simp only [connectClusters, he, List.map_cons, List.length_cons,
        List.take_succ_cons, List.map]
      rw [ih]
    | connected probe =>
      by_cases hcap : testPublishCapability userName c.name probe
      · simp [connectClusters, he, hcap]
      · simp only [connectClusters, he, hcap, if_neg, Bool.false_eq_true,
          not_false_eq_true, List.map_cons, List.length_cons,
          List.take_succ_cons, List.map]
        rw [ih]

/-- C3: the Fallback Selector is deterministic — two runs whose
environments give identical verdicts on the candidate clusters produce
identical selections and traces — and candidates are tried strictly in the
given order (`main` then `leaf`): the attempted-cluster trace is an initial
segment of the candidate-name list. -/
theorem connectWithFallback_deterministic (userName : String)
    (env env' : String → ConnectOutcome)
    (h : ∀ c ∈ clusters, env c.name = env' c.name) :
    connectWithFallback userName env = connectWithFallback userName env' ∧
    (connectWithFallback userName env).attempts.map AttemptRecord.cluster
      = (clusters.map ClusterInfo.name).take
          (connectWithFallback userName env).attempts.length := by
  have hcongr := connectClusters_congr userName env env' clusters h
  refine ⟨?_, connectClusters_order userName env clusters⟩
  simp [connectWithFallback, hcongr]

/-- Witness for `connectWithFallback_deterministic`: two syntactically
different environments with the same verdicts on `main` and `leaf` select
the same cluster. -/
theorem connectWithFallback_deterministic_witness :
    connectWithFallback "bar"
        (fun n => if n == "main" then
            ConnectOutcome.connected (ProbeResult.probeError "no responders available")
          else ConnectOutcome.connected (ProbeResult.replied "pong"))
      = connectWithFallback "bar"
        (fun n => if n == "leaf" then
            ConnectOutcome.connected (ProbeResult.replied "pong")
          else ConnectOutcome.connected (ProbeResult.probeError "no responders available")) :=
  (connectWithFallback_deterministic "bar"
    (fun n => if n == "main" then
        ConnectOutcome.connected (ProbeResult.probeError "no responders available")
      else ConnectOutcome.connected (ProbeResult.replied "pong"))
    (fun n => if n == "leaf" then
        ConnectOutcome.connected (ProbeResult.replied "pong")
      else ConnectOutcome.connected (ProbeResult.probeError "no responders available"))
    (by intro c hc; fin_cases hc <;> rfl)).1

/-- Decidable statement that the environment rejects a candidate: either
the connect call fails, or it connects and the capability test returns
`false`. -/
def attemptRejectedB (userName : String) (env : String → ConnectOutcome)
    (c : ClusterInfo) : Bool :=
  match env c.name with
  | ConnectOutcome.connFailed _ => true
  | ConnectOutcome.connected p => !(testPublishCapability userName c.name p)

theorem connectClusters_exhausted (userName : String)
    (env : String → ConnectOutcome) (cs : List ClusterInfo)
    (h : ∀ c ∈ cs, attemptRejectedB userName env c = true) :
    (connectClusters userName env cs).1 = none ∧
    (connectClusters userName env cs).2.map AttemptRecord.cluster
        = cs.map ClusterInfo.name ∧
    ∀ a ∈ (connectClusters userName env cs).2, a.kind ≠ AttemptKind.accepted := by
  induction cs with
  | nil => exact ⟨rfl, rfl, fun a ha => absurd ha (List.not_mem_nil a)⟩
  | cons c rest ih =>
    have hc : attemptRejectedB userName env c = true := h c (List.mem_cons_self c rest)
    have hrest := ih (fun d hd => h d (List.mem_cons_of_mem c hd))
    cases he : env c.name with
    | connFailed m =>
      refine ⟨?_, ?_, ?_⟩
      · simp only [connectClusters, he]; exact hrest.1
      · simp only [connectClusters, he, List.map_cons]
        rw [hrest.2.1]
      · intro a ha
        simp only [connectClusters, he, List.mem_cons] at ha
        rcases ha with rfl | ha
        · intro hk; cases hk
        · exact hrest.2.2 a ha
    | connected probe =>
      have hcap : testPublishCapability userName c.name probe = false := by
        rw [attemptRejectedB, he] at hc
        simpa using hc
      refine ⟨?_, ?_, ?_⟩
      · simp only [connectClusters, he, hcap]
        simpa using hrest.1
      · simp only [connectClusters, he, hcap, Bool.false_eq_true, if_neg,
          not_false_eq_true, List.map_cons]
        rw [hrest.2.1]
      · intro a ha
        simp only [connectClusters, he, hcap, Bool.false_eq_true, if_neg,
          not_false_eq_true, List.mem_cons] at ha
        rcases ha with rfl | ha
        · intro hk; cases hk
        · exact hrest.2.2 a ha

/-- C4 (amended): when every candidate cluster is rejected (connect failure
or capability denial), `connectWithFallback` returns `false` having
attempted every candidate in input order with no attempt accepted; the
per-attempt classifications exist only in the logged trace, not in the
returned value. -/
theorem connectWithFallback_exhaustion (userName : String)
    (env : String → ConnectOutcome)
    (h : ∀ c ∈ clusters, attemptRejectedB userName env c = true) :
    connectWithFallbackReturn userName env = false ∧
    (connectWithFallback userName env).connectedCluster = none ∧
    (connectWithFallback userName env).attempts.map AttemptRecord.cluster
        = clusters.map ClusterInfo.name ∧
    ∀ a ∈ (connectWithFallback userName env).attempts,
      a.kind ≠ AttemptKind.accepted := by
  have hmain := connectClusters_exhausted userName env clusters h
  refine ⟨?_, ?_, hmain.2.1, hmain.2.2⟩
  · simp [connectWithFallbackReturn, connectWithFallback, hmain.1]
  · simp [connectWithFallback, hmain.1]

/-- Exhaustion environment A: `main` connects but the prober is denied,
`leaf` fails to connect. -/
def envExhaustA : String → ConnectOutcome := fun n =>
  if n == "main" then
    ConnectOutcome.connected (ProbeResult.probeError "no responders available")
  else
    ConnectOutcome.connFailed "connection refused"

/-- Exhaustion environment B: both connects fail outright. -/
def envExhaustB : String → ConnectOutcome := fun _ =>
  ConnectOutcome.connFailed "tls handshake failure"

/-- Witness for `connectWithFallback_exhaustion` at environment A. -/
theorem connectWithFallback_exhaustion_witness :
    connectWithFallbackReturn "bar" envExhaustA = false :=
  (connectWithFallback_exhaustion "bar" envExhaustA (by decide)).1

/-- C4 counterexample: on exhaustion the source returns the bare boolean
`false`, not a structured error carrying the attempt list — two exhausted
runs with different attempt classifications return the identical value, so
the caller cannot inspect the attempts at all. -/
theorem connectWithFallback_return_carries_no_attempts :
    connectWithFallbackReturn "bar" envExhaustA = false ∧
    connectWithFallbackReturn "bar" envExhaustB = false ∧
    (connectWithFallback "bar" envExhaustA).attempts
        ≠ (connectWithFallback "bar" envExhaustB).attempts ∧
    connectWithFallbackReturn "bar" envExhaustA
        = connectWithFallbackReturn "bar" envExhaustB := by
  refine ⟨by decide, by decide, by decide, by decide⟩

/-- C8 counterexample: a transport-level probe error that is neither a
timeout nor a no-responder signal ("connection reset by peer") produces the
same `false` verdict as the no-responder denial, and `connectWithFallback`
simply advances to the `leaf` cluster and reports overall success — the
error is swallowed into the ordinary denied path, never surfaced as a hard
failure. -/
theorem testPublishCapability_transport_error_swallowed :
    testPublishCapability "bar" "main"
        (ProbeResult.probeError "connection reset by peer") = false ∧
    testPublishCapability "bar" "main"
        (ProbeResult.probeError "connection reset by peer")
      = testPublishCapability "bar" "main"
          (ProbeResult.probeError "503 no responders available") ∧
    (connectWithFallback "bar"
        (fun n => if n == "main" then
            ConnectOutcome.connected (ProbeResult.probeError "connection reset by peer")
          else ConnectOutcome.connected (ProbeResult.replied "pong"))).connectedCluster
      = some leafCluster ∧
    connectWithFallbackReturn "bar"
        (fun n => if n == "main" then
            ConnectOutcome.connected (ProbeResult.probeError "connection reset by peer")
          else ConnectOutcome.connected (ProbeResult.replied "pong")) = true := by
  refine ⟨by decide, by decide, by decide, by decide⟩

/-- C8 (amended): any probe error whose message does not contain
`"timeout"` — whether a no-responder signal or any other transport error —
yields the verdict `false` for `bar` on `main`, indistinguishable from a
denial, and the selector then merely advances to the next candidate. -/
theorem testPublishCapability_non_timeout_is_denied (msg : String)
    (h : includes msg "timeout" = false) :
    testPublishCapability "bar" "main" (ProbeResult.probeError msg) = false ∧
    ∀ resp,
      (connectWithFallback "bar"
          (fun n => if n == "main" then
              ConnectOutcome.connected (ProbeResult.probeError msg)
            else ConnectOutcome.connected (ProbeResult.replied resp))).connectedCluster
        = some leafCluster := by
  have hver : testPublishCapability "bar" "main" (ProbeResult.probeError msg) = false := by
    simp [testPublishCapability, h]
  refine ⟨hver, fun resp => ?_⟩
  simp [connectWithFallback, connectClusters, clusters, mainCluster, leafCluster,
    hver, testPublishCapability, h]

/-- Witness for `testPublishCapability_non_timeout_is_denied` at the
concrete transport error. -/
theorem testPublishCapability_non_timeout_is_denied_witness :
    testPublishCapability "bar" "main"
        (ProbeResult.probeError "connection reset by peer") = false :=
  (testPublishCapability_non_timeout_is_denied "connection reset by peer" (by decide)).1

/-! ## Subscriber registration: `NATSSubscriber.subscribe`
(src/subscriber.ts lines 85-113) and
`BroadcastSubscriber.setupBroadcastSubscriptions`

`NATSSubscriber.subscribe` loops over the configured subjects; a failed
`nc.subscribe` is caught, logged and then re-thrown, which aborts the loop
(and the caller's error handler shuts the process down).
`setupBroadcastSubscriptions` catches the failure, logs it and continues
with the remaining patterns. -/

/-- Environment-supplied result of one `nc.subscribe(pattern)` call. -/
inductive SubAttempt where
  | subOk
  | subFail (msg : String)
deriving DecidableEq, Repr

/-- Whether a registration attempt succeeds. -/
def subAttemptOk : SubAttempt → Bool
  | SubAttempt.subOk => true
  | SubAttempt.subFail _ => false

/-- Shallow embedding of `NATSSubscriber.subscribe`: returns the list of
subscriptions established before any throw, and the message of the
re-thrown error, if any (`none` means the loop completed). -/
def natsSubscribe (subEnv : String → SubAttempt) :
    List String → List String × Option String
  | [] => ([], none)
  | s :: rest =>
    match subEnv s with
    | SubAttempt.subOk =>
        (s :: (natsSubscribe subEnv rest).1, (natsSubscribe subEnv rest).2)
    | SubAttempt.subFail m => ([], some m)

/-- Shallow embedding of
`BroadcastSubscriber.setupBroadcastSubscriptions`: a failed registration is
logged and skipped, the loop always continues; returns the established
subscriptions. -/
def setupBroadcastSubscriptions (subEnv : String → SubAttempt) :
    List String → List String
  | [] => []
  | p :: rest =>
    match subEnv p with
    | SubAttempt.subOk => p :: setupBroadcastSubscriptions subEnv rest
    | SubAttempt.subFail _ => setupBroadcastSubscriptions subEnv rest

/-- Registration environment for the C6 counterexample: exactly the
malformed pattern fails. -/
def subEnvC6 : String → SubAttempt := fun s =>
  if s == "bad..pattern" then SubAttempt.subFail "invalid subject" else SubAttempt.subOk

/-- C6 counterexample: with patterns `["bad..pattern", "ok.subject"]` where
only the first is malformed, `NATSSubscriber.subscribe` re-throws at the
first pattern and `ok.subject` — although registrable — is never
established, so one failed pattern does prevent later valid ones.  The
broadcast subscriber, by contrast, isolates the failure. -/
theorem natsSubscribe_aborts_on_failed_pattern :
    subEnvC6 "ok.subject" = SubAttempt.subOk ∧
    natsSubscribe subEnvC6 ["bad..pattern", "ok.subject"]
        = ([], some "invalid subject") ∧
    setupBroadcastSubscriptions subEnvC6 ["bad..pattern", "ok.subject"]
        = ["ok.subject"] := by
  refine ⟨by decide, by decide, by decide⟩

/-- C6 (amended): `BroadcastSubscriber.setupBroadcastSubscriptions` has the
claimed partial-failure semantics — every registrable pattern is
established no matter which other patterns fail — while
`NATSSubscriber.subscribe` establishes only the patterns preceding the
first failure and re-throws that failure, aborting the registration of the
remaining patterns. -/
theorem subscribe_partial_failure_semantics (subEnv : String → SubAttempt)
    (patterns : List String) :
    setupBroadcastSubscriptions subEnv patterns
        = patterns.filter (fun s => subAttemptOk (subEnv s)) ∧
    (natsSubscribe subEnv patterns).1
        = patterns.takeWhile (fun s => subAttemptOk (subEnv s)) ∧
    ((natsSubscribe subEnv patterns).2 = none ↔
      ∀ s ∈ patterns, subAttemptOk (subEnv s) = true) := by
  induction patterns with
  | nil =>
    exact ⟨rfl, rfl, by simp [natsSubscribe]⟩
  | cons p rest ih =>
    cases hp : subEnv p with
    | subOk =>
      refine ⟨?_, ?_, ?_⟩
      · simp [setupBroadcastSubscriptions, subAttemptOk, hp, List.filter_cons, ih.1]
      · simp [natsSubscribe, subAttemptOk, hp, List.takeWhile_cons, ih.2.1]
      · simp [natsSubscribe, subAttemptOk, hp, List.forall_mem_cons, ih.2.2]
    | subFail m =>
      refine ⟨?_, ?_, ?_⟩
      · simp [setupBroadcastSubscriptions, subAttemptOk, hp, List.filter_cons, ih.1]
      · simp [natsSubscribe, subAttemptOk, hp, List.takeWhile_cons]
      · simp [natsSubscribe, subAttemptOk, hp, List.forall_mem_cons]

/-! ## Subscriber message loop: `NATSSubscriber.processMessages`
(src/subscriber.ts lines 115-161)

The loop handles one message at a time: it increments the per-session
counter, and when the message carries a reply address it synchronously
publishes a structured acknowledgement to that address before awaiting the
next message.  `clock` supplies the timestamp taken while handling the
n-th message. -/

/-- An inbound message as seen by the subscription iterator. -/
structure Msg where
  subject : String
  data : String
  reply : Option String
deriving DecidableEq, Repr

/-- The structured acknowledgement payload (`JSON.stringify` fields of the
reply in `processMessages`). -/
structure ReplyData where
  status : String
  user : String
  receivedSubject : String
  subscribedVia : String
  timestamp : String
  originalData : String
deriving DecidableEq, Repr

/-- Mutable state of one subscription loop: the message counter and the
ordered log of publishes issued so far (reply address, acknowledgement). -/
structure SubState where
  messageCount : Nat
  published : List (String × ReplyData)
deriving DecidableEq, Repr

/-- Handling of a single message by the loop body. -/
def processOne (user pattern : String) (clock : Nat → String)
    (st : SubState) (m : Msg) : SubState :=
  match m.reply with
  | some r =>
      { messageCount := st.messageCount + 1,
        published := st.published ++
          [(r, ReplyData.mk "received" user m.subject pattern
              (clock (st.messageCount + 1)) m.data)] }
  | none => { st with messageCount := st.messageCount + 1 }

/-- Shallow embedding of `processMessages`: the sequential `for await`
loop over the messages delivered on one subscription. -/
def processMessages (user pattern : String) (clock : Nat → String)
    (st : SubState) (msgs : List Msg) : SubState :=
  msgs.foldl (processOne user pattern clock) st

/-- The acknowledgements the loop publishes for `msgs`, starting from
message number `n`. -/
def acksFrom (user pattern : String) (clock : Nat → String) (n : Nat) :
    List Msg → List (String × ReplyData)
  | [] => []
  | m :: rest =>
    match m.reply with
    | some r =>
        (r, ReplyData.mk "received" user m.subject pattern (clock (n + 1)) m.data)
          :: acksFrom user pattern clock (n + 1) rest
    | none => acksFrom user pattern clock (n + 1) rest

theorem processMessages_count (user pattern : String) (clock : Nat → String)
    (st : SubState) (msgs : List Msg) :
    (processMessages user pattern clock st msgs).messageCount
      = st.messageCount + msgs.length := by
  induction msgs generalizing st with
  | nil => rfl
  | cons m rest ih =>
    have step : (processOne user pattern clock st m).messageCount
        = st.messageCount + 1 := by
      cases hr : m.reply <;> simp [processOne, hr]
    calc (processMessages user pattern clock st (m :: rest)).messageCount
        = (processMessages user pattern clock (processOne user pattern clock st m) rest).messageCount := rfl
      _ = (processOne user pattern clock st m).messageCount + rest.length := ih _
      _ = st.messageCount + 1 + rest.length := by rw [step]
      _ = st.messageCount + (m :: rest).length := by
          simp [List.length_cons]
          omega

theorem processMessages_published (user pattern : String) (clock : Nat → String)
    (st : SubState) (msgs : List Msg) :
    (processMessages user pattern clock st msgs).published
      = st.published ++ acksFrom user pattern clock st.messageCount msgs := by
  induction msgs generalizing st with
  | nil => simp [processMessages, acksFrom]
  | cons m rest ih =>
    cases hr : m.reply with
    | some r =>
      calc (processMessages user pattern clock st (m :: rest)).published
          = (processMessages user pattern clock (processOne user pattern clock st m) rest).published := rfl
        _ = (processOne user pattern clock st m).published ++
              acksFrom user pattern clock (processOne user pattern clock st m).messageCount rest := ih _
        _ = st.published ++ acksFrom user pattern clock st.messageCount (m :: rest) := by
            simp [processOne, hr, acksFrom, List.append_assoc]
    | none =>
      calc (processMessages user pattern clock st (m :: rest)).published
          = (processMessages user pattern clock (processOne user pattern clock st m) rest).published := rfl
        _ = (processOne user pattern clock st m).published ++
              acksFrom user pattern clock (processOne user pattern clock st m).messageCount rest := ih _
        _ = st.published ++ acksFrom user pattern clock st.messageCount (m :: rest) := by
            simp [processOne, hr, acksFrom]

theorem acksFrom_targets (user pattern : String) (clock : Nat → String)
    (n : Nat) (msgs : List Msg) :
    (acksFrom user pattern clock n msgs).map Prod.fst = msgs.filterMap Msg.reply := by
  induction msgs generalizing n with
  | nil => rfl
  | cons m rest ih =>
    cases hr : m.reply with
    | some r => simp [acksFrom, hr, List.filterMap_cons, ih]
    | none => simp [acksFrom, hr, List.filterMap_cons, ih]

theorem acksFrom_take (user pattern : String) (clock : Nat → String)
    (n : Nat) (msgs : List Msg) (k : Nat)
    (h : ∀ m ∈ msgs, m.reply.isSome = true) :
    acksFrom user pattern clock n (msgs.take k)
      = (acksFrom user pattern clock n msgs).take k := by
  induction msgs generalizing n k with
  | nil => simp [acksFrom]
  | cons m rest ih =>
    cases k with
    | zero =>
      cases hr : m.reply with
      | some r => simp [acksFrom, hr]
      | none =>
        have := h m (List.mem_cons_self m rest)
        rw [hr] at this
        cases this
    | succ k =>
      cases hr : m.reply with
      | some r =>
        simp only [List.take_succ_cons, acksFrom, hr, List.take]
        rw [ih (n + 1) k (fun d hd => h d (List.mem_cons_of_mem m hd))]
      | none =>
        have := h m (List.mem_cons_self m rest)
        rw [hr] at this
        cases this

theorem filterMap_reply_length (msgs : List Msg)
    (h : ∀ m ∈ msgs, m.reply.isSome = true) :
    (msgs.filterMap Msg.reply).length = msgs.length := by
  induction msgs with
  | nil => rfl
  | cons m rest ih =>
    cases hr : m.reply with
    | some r =>
      simp only [List.filterMap_cons, hr, List.length_cons]
      rw [ih (fun d hd => h d (List.mem_cons_of_mem m hd))]
    | none =>
      have := h m (List.mem_cons_self m rest)
      rw [hr] at this
      cases this

/-- C7: for a subscriber receiving `N` sequential request-style messages
(every message carries a reply address) on one subscription, exactly `N`
acknowledgements are published, in arrival order, each addressed to the
originating message's reply address; and after any prefix of `k` messages
exactly the first `k` acknowledgements have been published — each
acknowledgement is sent before the next message is processed. -/
theorem processMessages_reply_ordering (user pattern : String)
    (clock : Nat → String) (msgs : List Msg)
    (h : ∀ m ∈ msgs, m.reply.isSome = true) :
    (processMessages user pattern clock (SubState.mk 0 []) msgs).published.length
        = msgs.length ∧
    (processMessages user pattern clock (SubState.mk 0 []) msgs).messageCount
        = msgs.length ∧
    (processMessages user pattern clock (SubState.mk 0 []) msgs).published.map Prod.fst
        = msgs.filterMap Msg.reply ∧
    ∀ k, (processMessages user pattern clock (SubState.mk 0 []) (msgs.take k)).published
        = (processMessages user pattern clock (SubState.mk 0 []) msgs).published.take k := by
  have hpub := processMessages_published user pattern clock (SubState.mk 0 []) msgs
  have htargets := acksFrom_targets user pattern clock 0 msgs
  have hmap : (processMessages user pattern clock (SubState.mk 0 []) msgs).published.map Prod.fst
      = msgs.filterMap Msg.reply := by
    rw [hpub]
    simpa using htargets
  refine ⟨?_,
    by simpa using processMessages_count user pattern clock (SubState.mk 0 []) msgs,
    hmap, ?_⟩
  · have hlen : (msgs.filterMap Msg.reply).length = msgs.length :=
      filterMap_reply_length msgs h
    calc (processMessages user pattern clock (SubState.mk 0 []) msgs).published.length
        = ((processMessages user pattern clock (SubState.mk 0 []) msgs).published.map Prod.fst).length := by
          simp
      _ = (msgs.filterMap Msg.reply).length := by rw [hmap]
      _ = msgs.length := hlen
  · intro k
    have hpubk := processMessages_published user pattern clock (SubState.mk 0 []) (msgs.take k)
    rw [hpubk, hpub]
    simp only [List.nil_append]
    exact acksFrom_take user pattern clock 0 msgs k h

/-- Witness for `processMessages_reply_ordering` on two concrete request
messages: two acknowledgements, in order, to the two reply inboxes. -/
theorem processMessages_reply_ordering_witness :
    (processMessages "Foo" "rpc.hello.world" (fun _ => "t") (SubState.mk 0 [])
        [Msg.mk "rpc.hello.world" "d1" (some "_INBOX.1"),
         Msg.mk "rpc.hello.world" "d2" (some "_INBOX.2")]).published.map Prod.fst
      = ["_INBOX.1", "_INBOX.2"] := by
  have := (processMessages_reply_ordering "Foo" "rpc.hello.world" (fun _ => "t")
    [Msg.mk "rpc.hello.world" "d1" (some "_INBOX.1"),
     Msg.mk "rpc.hello.world" "d2" (some "_INBOX.2")]
    (by intro m hm; fin_cases hm <;> rfl)).2.2.1
  rw [this]
  rfl

end NatsPoc
